import Mathlib

/-
Verification of the core simulation of the one-on-one basketball game
(src/config.js, src/core/Math.js, src/game/Physics.js, src/game/Ball.js,
src/game/Player.js, src/game/Rules.js, src/scenes/GameScene.js).

The JavaScript source computes with floating-point numbers and the
irrational library functions Math.sqrt, Math.cos, Math.sin, Math.atan2.
The embedding uses exact rationals and is parametric in a record JSMath
supplying those four functions; theorems that need the defining property
of the square root take it as a hypothesis at the relevant argument and
are instantiated at inputs where the root is rational.  Calls to
Math.random are modelled by passing the sampled value explicitly.
Rendering, audio and console logging are omitted; fields that exist only
for rendering or animation (colors, animation-state labels) are omitted
from the data model.
-/

namespace Basket

/-- CONFIG.COURT.WIDTH (15 meters). -/
def courtWidth : ℚ := 15

/-- CONFIG.COURT.LENGTH (14 meters). -/
def courtLength : ℚ := 14

/-- CONFIG.COURT.THREE_POINT_RADIUS (6.75 meters). -/
def threePointRadius : ℚ := 27/4

/-- CONFIG.COURT.FREE_THROW_DISTANCE (4.6 meters). -/
def freeThrowDistance : ℚ := 23/5

/-- CONFIG.COURT.RIM_RADIUS (0.23 meters). -/
def rimRadius : ℚ := 23/100

/-- CONFIG.COURT.RIM_HEIGHT (3.05 meters). -/
def rimHeight : ℚ := 61/20

/-- CONFIG.COURT.BACKBOARD_WIDTH (1.8 meters). -/
def backboardWidth : ℚ := 9/5

/-- CONFIG.COURT.BACKBOARD_HEIGHT (1.05 meters). -/
def backboardHeight : ℚ := 21/20

/-- CONFIG.COURT.BACKBOARD_DISTANCE (1.2 meters). -/
def backboardDistance : ℚ := 6/5

/-- CONFIG.GAME.WIN_SCORE (11 points). -/
def winScore : ℕ := 11

/-- CONFIG.GAME.STEAL_COOLDOWN (0.7 seconds). -/
def stealCooldownConst : ℚ := 7/10

/-- CONFIG.PLAYER.RADIUS (0.35 meters). -/
def playerRadius : ℚ := 7/20

/-- CONFIG.PLAYER.LOW_STAMINA_THRESHOLD (30). -/
def lowStaminaThreshold : ℚ := 30

/-- CONFIG.PLAYER.LOW_STAMINA_ACCURACY_PENALTY (0.85). -/
def lowStaminaAccuracyPenalty : ℚ := 17/20

/-- CONFIG.BALL.RADIUS (0.12 meters). -/
def ballRadius : ℚ := 3/25

/-- CONFIG.BALL.GRAVITY (9.81 m per s squared). -/
def gravity : ℚ := 981/100

/-- CONFIG.BALL.BOUNCE_FACTOR (0.75). -/
def bounceFactor : ℚ := 3/4

/-- CONFIG.BALL.FRICTION_GROUND (0.95). -/
def frictionGround : ℚ := 19/20

/-- CONFIG.BALL.FRICTION_AIR (0.99). -/
def frictionAir : ℚ := 99/100

/-- CONFIG.BALL.MIN_SHOT_POWER (0.2). -/
def minShotPower : ℚ := 1/5

/-- CONFIG.BALL.MAX_SHOT_POWER (1.0). -/
def maxShotPower : ℚ := 1

/-- CONFIG.BALL.POWER_CHARGE_RATE (1.2 per second). -/
def powerChargeRate : ℚ := 6/5

/-- CONFIG.BALL.MAGNETIC_WINDOW (0.08 meters). -/
def magneticWindow : ℚ := 2/25

/-- CONFIG.BALL.SHOT_BASE_SPEED (6.0). -/
def shotBaseSpeed : ℚ := 6

/-- CONFIG.BALL.SHOT_DISTANCE_FACTOR (0.5). -/
def shotDistanceFactor : ℚ := 1/2

/-- Rim x coordinate, CONFIG.COURT.WIDTH / 2 (set identically in Ball,
Player, AIController and isThreePoint). -/
def rimX : ℚ := courtWidth / 2

/-- Rim y coordinate, CONFIG.COURT.BACKBOARD_DISTANCE. -/
def rimY : ℚ := backboardDistance

/-- Rim height, CONFIG.COURT.RIM_HEIGHT (Ball constructor field rimZ). -/
def rimZ : ℚ := rimHeight

/-- Margin used by Ball.checkBounds (0.3 meters beyond the court). -/
def outOfBoundsMargin : ℚ := 3/10

/-- The two sides of the one-on-one game ('player' and 'ai' strings in the
source). -/
inductive Team where
  | player : Team
  | ai : Team
deriving DecidableEq

/-- The opposite side, as computed by the ternary expressions of the form
x === 'player' ? 'ai' : 'player' in the source. -/
def Team.other : Team → Team
  | Team.player => Team.ai
  | Team.ai => Team.player

/-- Abstract interface for the irrational library functions used by the
source: Math.sqrt, Math.cos, Math.sin and Math.atan2 (curried as
atan2 y x).  The whole embedding is parametric in this record. -/
structure JSMath where
  sqrt : ℚ → ℚ
  cos : ℚ → ℚ
  sin : ℚ → ℚ
  atan2 : ℚ → ℚ → ℚ

/-- Squared 2D distance, the radicand of Math.js distance. -/
def distSq (x1 y1 x2 y2 : ℚ) : ℚ := (x2 - x1) ^ 2 + (y2 - y1) ^ 2

/-- Math.js distance(x1, y1, x2, y2) = sqrt(dx*dx + dy*dy). -/
def distance (R : JSMath) (x1 y1 x2 y2 : ℚ) : ℚ := R.sqrt (distSq x1 y1 x2 y2)

/-- Math.js clamp(value, lo, hi) = Math.min(Math.max(value, lo), hi). -/
def clamp (value lo hi : ℚ) : ℚ := min (max value lo) hi

/-- Physics.js calculateOptimalShotPower(distance): the optimal initial
speed SHOT_BASE_SPEED + distance * SHOT_DISTANCE_FACTOR. -/
def calculateOptimalShotPower (d : ℚ) : ℚ := shotBaseSpeed + d * shotDistanceFactor

/-- Physics.js isThreePoint(x, y): the point is at distance at least
THREE_POINT_RADIUS from the rim. -/
def isThreePoint (R : JSMath) (x y : ℚ) : Bool :=
  decide (threePointRadius ≤ distance R x y rimX rimY)

/-- Physics.js checkRimCollision: the ball must be within twice the ball
radius of rim height, and its 2D distance to the rim center must be within
the rim radius plus the magnetic window. -/
def checkRimCollision (R : JSMath) (ballX ballY ballZ rx ry rz : ℚ) : Bool :=
  if ballRadius * 2 < |ballZ - rz| then false
  else decide (distance R ballX ballY rx ry ≤ rimRadius + magneticWindow)

/-- Physics.js checkBackboardCollision: axis-aligned box test around the
backboard plane. -/
def checkBackboardCollision (ballX ballY ballZ boardX boardY : ℚ) : Bool :=
  if ballY < boardY - 1/10 ∨ boardY + 1/10 < ballY then false
  else if backboardWidth / 2 < |ballX - boardX| then false
  else if ballZ < rimHeight ∨ rimHeight + backboardHeight < ballZ then false
  else true

/-- A velocity vector, as the plain objects passed around by the source. -/
structure Vec3 where
  x : ℚ
  y : ℚ
  z : ℚ
deriving DecidableEq

/-- Physics.js reflectFromBackboard: reflect off the vertical plane with
energy loss 0.6 on the depth axis and 0.8 on the vertical axis. -/
def reflectFromBackboard (v : Vec3) : Vec3 :=
  { x := v.x, y := -v.y * (3/5), z := v.z * (4/5) }

/-- Player.js state relevant to the simulation (rendering-only fields such
as color, and the observational animation-state label, are omitted). -/
structure Player where
  x : ℚ
  y : ℚ
  vx : ℚ
  vy : ℚ
  facing : ℚ
  stamina : ℚ
  isSprinting : Bool
  hasBall : Bool
  shotPower : ℚ
  shotCharging : Bool
  shotAngle : ℚ
  stealCooldown : ℚ
  stepBackCooldown : ℚ
  invulnerableTime : ℚ
deriving DecidableEq

/-- Physics.js resolvePlayerCollision: if the players overlap (distance
below twice the player radius) and the distance is positive, push both out
along the connecting normal by half the overlap each. -/
def resolvePlayerCollision (R : JSMath) (p1 p2 : Player) : Player × Player :=
  let d := distance R p1.x p1.y p2.x p2.y
  let minDist := playerRadius * 2
  if d < minDist ∧ 0 < d then
    let nx := (p2.x - p1.x) / d
    let ny := (p2.y - p1.y) / d
    let overlap := minDist - d
    let pushX := nx * overlap * (1/2)
    let pushY := ny * overlap * (1/2)
    ({ p1 with x := p1.x - pushX, y := p1.y - pushY },
     { p2 with x := p2.x + pushX, y := p2.y + pushY })
  else (p1, p2)

/-- Player.startShot(angle): requires hasBall, arms charging at zero
power. -/
def Player.startShot (angle : ℚ) (p : Player) : Player :=
  if p.hasBall = false then p
  else { p with shotCharging := true, shotPower := 0, shotAngle := angle }

/-- Player.chargeShot(dt): requires charging, accumulates power at
POWER_CHARGE_RATE and clamps to the min-max power range. -/
def Player.chargeShot (dt : ℚ) (p : Player) : Player :=
  if p.shotCharging = false then p
  else { p with shotPower := clamp (p.shotPower + powerChargeRate * dt) minShotPower maxShotPower }

/-- The launch data returned by Player.executeShot. -/
structure Shot where
  vx : ℚ
  vy : ℚ
  vz : ℚ
  power : ℚ
deriving DecidableEq

/-- Player.executeShot(): returns null unless charging and holding the
ball; otherwise computes the launch vector from the charge power, the
distance-indexed optimal power, the stamina accuracy penalty and the angle
to the rim, clears shotCharging and hasBall, and returns the vector (the
ball is not touched: the caller must release it). -/
def Player.executeShot (R : JSMath) (p : Player) : Option Shot × Player :=
  if p.shotCharging = false ∨ p.hasBall = false then (none, p)
  else
    let distToRim := distance R p.x p.y rimX rimY
    let optimalPower := calculateOptimalShotPower distToRim
    let accuracy : ℚ := if p.stamina < lowStaminaThreshold then lowStaminaAccuracyPenalty else 1
    let angleToRim := R.atan2 (rimY - p.y) (rimX - p.x)
    let horizontalSpeed := p.shotPower * optimalPower * accuracy
    let vx := R.cos angleToRim * horizontalSpeed
    let vy := R.sin angleToRim * horizontalSpeed
    let vz := R.sqrt (2 * gravity * rimHeight) * (4/5 + p.shotPower * (2/5))
    (some { vx := vx, vy := vy, vz := vz, power := p.shotPower },
     { p with shotCharging := false, hasBall := false })

/-- Player.attemptSteal(target): rejected (returning false with the
attacker untouched) when the attacker's cooldown is active, the target has
no ball, the target is invulnerable, or the distance exceeds three player
radii; otherwise arms the cooldown and succeeds when the random sample is
below 0.3 * (1 - dist / (3 * radius)).  The Math.random() sample is the
explicit argument rand. -/
def Player.attemptSteal (R : JSMath) (rand : ℚ) (p target : Player) : Bool × Player :=
  if 0 < p.stealCooldown then (false, p)
  else if target.hasBall = false then (false, p)
  else if 0 < target.invulnerableTime then (false, p)
  else
    let d := distance R p.x p.y target.x target.y
    if playerRadius * 3 < d then (false, p)
    else
      let p' := { p with stealCooldown := stealCooldownConst }
      let successChance := (3/10) * (1 - d / (playerRadius * 3))
      (decide (rand < successChance), p')

/-- Ball.js 3-state machine. -/
inductive BallState where
  | free : BallState
  | held : BallState
  | inFlight : BallState
deriving DecidableEq

/-- Ball.js state (the per-instance rim coordinates are the constants
rimX, rimY, rimZ; dribbleBounceHeight is a constant of the held-state
oscillation, which is abstracted below). -/
structure Ball where
  x : ℚ
  y : ℚ
  z : ℚ
  vx : ℚ
  vy : ℚ
  vz : ℚ
  state : BallState
  holderId : Option Team
  hasScored : Bool
  isOutOfBounds : Bool
  justReleased : Bool
  dribbleTime : ℚ
deriving DecidableEq

/-- Ball.attachTo(playerId, x, y): attach the ball to a player, zero the
velocity, clear the scored, out-of-bounds and just-released flags. -/
def Ball.attachTo (playerId : Team) (x y : ℚ) (b : Ball) : Ball :=
  { b with
    state := BallState.held
    holderId := some playerId
    x := x
    y := y
    z := 6/5
    vx := 0
    vy := 0
    vz := 0
    hasScored := false
    isOutOfBounds := false
    justReleased := false }

/-- Ball.release(vx, vy, vz): switch to inFlight with the given velocity;
holderId is intentionally retained so the shooter can be credited. -/
def Ball.release (vx vy vz : ℚ) (b : Ball) : Ball :=
  { b with
    state := BallState.inFlight
    vx := vx
    vy := vy
    vz := vz
    hasScored := false
    justReleased := true }

/-- First block of Ball.update for a non-held ball: integrate gravity into
vz, integrate the position, apply air friction to the horizontal
velocity. -/
def Ball.integrate (dt : ℚ) (b : Ball) : Ball :=
  let vz := b.vz - gravity * dt
  { b with
    vz := vz
    x := b.x + b.vx * dt
    y := b.y + b.vy * dt
    z := b.z + vz * dt
    vx := b.vx * frictionAir
    vy := b.vy * frictionAir }

/-- Ground-contact block of Ball.update: reflect vz with the bounce
factor, apply ground friction, and settle to free once vz is small. -/
def Ball.groundStep (b : Ball) : Ball :=
  if b.z ≤ ballRadius then
    let b1 := { b with
                z := ballRadius
                vz := -b.vz * bounceFactor
                justReleased := false
                vx := b.vx * frictionGround
                vy := b.vy * frictionGround }
    if |b1.vz| < 1/2 then { b1 with vz := 0, z := ballRadius, state := BallState.free }
    else b1
  else b

/-- Rim-contact block of Ball.update: tested only while inFlight,
descending and not yet scored; a hit marks hasScored and damps vz by the
factor 0.7 (the ball keeps falling through). -/
def Ball.rimStep (R : JSMath) (b : Ball) : Ball :=
  if b.state = BallState.inFlight ∧ b.vz < 0 ∧ b.hasScored = false then
    if checkRimCollision R b.x b.y b.z rimX rimY rimZ then
      { b with hasScored := true, vz := b.vz * (7/10) }
    else b
  else b

/-- Backboard block of Ball.update: while inFlight, reflect the velocity
off the backboard plane on a hit. -/
def Ball.backboardStep (b : Ball) : Ball :=
  if b.state = BallState.inFlight then
    if checkBackboardCollision b.x b.y b.z rimX rimY then
      let r := reflectFromBackboard { x := b.vx, y := b.vy, z := b.vz }
      { b with vx := r.x, vy := r.y, vz := r.z }
    else b
  else b

/-- Ball.checkBounds: a pure position test against the court extents plus
a margin, setting the sticky out-of-bounds flag. -/
def Ball.checkBoundsStep (b : Ball) : Ball :=
  if b.x < -outOfBoundsMargin ∨ courtWidth + outOfBoundsMargin < b.x ∨
     b.y < -outOfBoundsMargin ∨ courtLength + outOfBoundsMargin < b.y then
    { b with isOutOfBounds := true }
  else b

/-- Ball.update(dt): while held, only advance the dribble oscillation
(osc abstracts the height 1.2 + abs(sin(t * 2 * pi)) * 0.3, which is
irrational); otherwise integrate ballistics and run the ground, rim,
backboard and bounds blocks in source order. -/
def Ball.update (R : JSMath) (osc : ℚ → ℚ) (dt : ℚ) (b : Ball) : Ball :=
  if b.state = BallState.held then
    { b with dribbleTime := b.dribbleTime + dt, z := osc (b.dribbleTime + dt) }
  else
    Ball.checkBoundsStep (Ball.backboardStep (Ball.rimStep R (Ball.groundStep (Ball.integrate dt b))))

/-- Ball.isScore(): the ball has scored and has fallen below rim
height. -/
def Ball.isScore (b : Ball) : Bool := b.hasScored && decide (b.z < rimZ)

/-- The shot clock value: a finite number of seconds or the Infinity
sentinel of the unlimited setting. -/
inductive Clock where
  | fin : ℚ → Clock
  | inf : Clock
deriving DecidableEq

/-- JS subtraction on the shot clock: Infinity - dt = Infinity. -/
def Clock.sub (c : Clock) (d : ℚ) : Clock :=
  match c with
  | Clock.fin q => Clock.fin (q - d)
  | Clock.inf => Clock.inf

/-- JS test shotClock <= 0 (false for Infinity). -/
def Clock.le0 (c : Clock) : Bool :=
  match c with
  | Clock.fin q => decide (q ≤ 0)
  | Clock.inf => false

/-- A scoring preset (CONFIG.GAME.SCORING_STREET is INSIDE 1,
THREE_POINT 2; SCORING_CLASSIC is 2 and 3). -/
structure ScoringSystem where
  INSIDE : ℕ
  THREE_POINT : ℕ
deriving DecidableEq

/-- The match-start settings read by Rules: the shot clock duration
(possibly the Infinity sentinel) and the active scoring preset
(GameSettings.getScoringSystem()). -/
structure GameSettings where
  shotClockDuration : Clock
  scoring : ScoringSystem
deriving DecidableEq

/-- Rules.stats. -/
structure Stats where
  playerShots : ℕ
  playerMakes : ℕ
  aiShots : ℕ
  aiMakes : ℕ
  fouls : ℕ
deriving DecidableEq

/-- Rules.gameState labels. -/
inductive GState where
  | checkBall : GState
  | liveBall : GState
  | freeThrow : GState
  | gameOver : GState
deriving DecidableEq

/-- Rules.js state. -/
structure Rules where
  settings : GameSettings
  playerScore : ℕ
  aiScore : ℕ
  possession : Team
  needsCheckBall : Bool
  shotClock : Clock
  shotClockActive : Bool
  gameState : GState
  stats : Stats
deriving DecidableEq

/-- Rules.resetShotClock(): set the shot clock to the configured
duration. -/
def Rules.resetShotClock (r : Rules) : Rules :=
  { r with shotClock := r.settings.shotClockDuration }

/-- Rules.changePossession(newPossession): the single authoritative
mutator of possession; sets needsCheckBall and resets the shot clock. -/
def Rules.changePossession (newPossession : Team) (r : Rules) : Rules :=
  Rules.resetShotClock { r with possession := newPossession, needsCheckBall := true }

/-- Rules.handleShotClockViolation(): flip possession to the other side
and force checkBall with the clock disarmed. -/
def Rules.handleShotClockViolation (r : Rules) : Rules :=
  let r1 := Rules.changePossession r.possession.other r
  { r1 with gameState := GState.checkBall, shotClockActive := false }

/-- Rules.update(dt): decrement the shot clock only while armed and live,
firing the violation handler when it reaches zero. -/
def Rules.update (dt : ℚ) (r : Rules) : Rules :=
  if r.shotClockActive = true ∧ r.gameState = GState.liveBall then
    let r1 := { r with shotClock := Clock.sub r.shotClock dt }
    if Clock.le0 r1.shotClock = true then Rules.handleShotClockViolation r1 else r1
  else r

/-- Rules.registerShotAttempt(team). -/
def Rules.registerShotAttempt (team : Team) (r : Rules) : Rules :=
  match team with
  | Team.player => { r with stats := { r.stats with playerShots := r.stats.playerShots + 1 } }
  | Team.ai => { r with stats := { r.stats with aiShots := r.stats.aiShots + 1 } }

/-- Rules.scorePoints(team, shotX, shotY): add the preset's three-point or
inside value depending on the shot location, credit the make, re-check the
ball to the scorer (changePossession(team)), force checkBall with the
clock disarmed, then evaluate the win condition. -/
def Rules.scorePoints (R : JSMath) (team : Team) (shotX shotY : ℚ) (r : Rules) : Rules :=
  let points := if isThreePoint R shotX shotY then r.settings.scoring.THREE_POINT
                else r.settings.scoring.INSIDE
  let r1 :=
    match team with
    | Team.player =>
        { r with
          playerScore := r.playerScore + points
          stats := { r.stats with playerMakes := r.stats.playerMakes + 1 } }
    | Team.ai =>
        { r with
          aiScore := r.aiScore + points
          stats := { r.stats with aiMakes := r.stats.aiMakes + 1 } }
  let r2 := Rules.changePossession team r1
  let r3 := { r2 with
              needsCheckBall := true
              gameState := GState.checkBall
              shotClockActive := false }
  if winScore ≤ r3.playerScore then { r3 with gameState := GState.gameOver }
  else if winScore ≤ r3.aiScore then { r3 with gameState := GState.gameOver }
  else r3

/-- The orchestrator state of GameScene: the two players, the ball, the
rules object and the out-of-bounds recovery timer (null when not
running). -/
structure GameScene where
  player : Player
  ai : Player
  ball : Ball
  rules : Rules
  outOfBoundsTimer : Option ℚ
deriving DecidableEq

/-- GameScene.setupInitialPositions(): clear both hasBall flags, place the
players on the check-ball spots according to possession, give the ball to
the possessing side and attach it at that player's hand position. -/
def GameScene.setupInitialPositions (s : GameScene) : GameScene :=
  let checkX := courtWidth / 2
  let checkY := freeThrowDistance + backboardDistance
  let player0 := { s.player with hasBall := false }
  let ai0 := { s.ai with hasBall := false }
  match s.rules.possession with
  | Team.player =>
    let player1 := { player0 with x := checkX, y := checkY + 2, hasBall := true }
    let ai1 := { ai0 with x := checkX, y := checkY - 2 }
    { s with
      player := player1
      ai := ai1
      ball := Ball.attachTo Team.player player1.x player1.y s.ball }
  | Team.ai =>
    let ai1 := { ai0 with x := checkX, y := checkY + 2, hasBall := true }
    let player1 := { player0 with x := checkX, y := checkY - 2 }
    { s with
      player := player1
      ai := ai1
      ball := Ball.attachTo Team.ai ai1.x ai1.y s.ball }

/-- The human branch of GameScene.handleBallPickup: grant the ball to the
player, revoke it from the AI, attach the ball flags, and reconcile
possession if it disagrees. -/
def GameScene.playerPickup (s : GameScene) : GameScene :=
  let s' := { s with
              player := { s.player with hasBall := true }
              ai := { s.ai with hasBall := false }
              ball := { s.ball with
                        state := BallState.held
                        holderId := some Team.player
                        isOutOfBounds := false } }
  if s'.rules.possession ≠ Team.player then
    { s' with rules := Rules.changePossession Team.player s'.rules }
  else s'

/-- The AI branch of GameScene.handleBallPickup (runs second in the
source). -/
def GameScene.aiPickup (s : GameScene) : GameScene :=
  let s' := { s with
              ai := { s.ai with hasBall := true }
              player := { s.player with hasBall := false }
              ball := { s.ball with
                        state := BallState.held
                        holderId := some Team.ai
                        isOutOfBounds := false } }
  if s'.rules.possession ≠ Team.ai then
    { s' with rules := Rules.changePossession Team.ai s'.rules }
  else s'

/-- GameScene.handleBallPickup(): radius test (three player radii) against
the human first, then against the AI, both branches running in the same
call. -/
def GameScene.handleBallPickup (R : JSMath) (s : GameScene) : GameScene :=
  let pickupRadius := playerRadius * 3
  let s1 := if distance R s.ball.x s.ball.y s.player.x s.player.y < pickupRadius
            then GameScene.playerPickup s else s
  if distance R s1.ball.x s1.ball.y s1.ai.x s1.ai.y < pickupRadius
  then GameScene.aiPickup s1 else s1

/-- The steal branch of GameScene.handlePlayerInput (right click without
the ball): on success take the ball from the AI; on failure only the
attacker's cooldown may have changed. -/
def GameScene.handleStealAttempt (R : JSMath) (rand : ℚ) (s : GameScene) : GameScene :=
  let res := Player.attemptSteal R rand s.player s.ai
  if res.1 = true then
    { s with
      player := { res.2 with hasBall := true }
      ai := { s.ai with hasBall := false }
      ball := { s.ball with state := BallState.held, holderId := some Team.player } }
  else { s with player := res.2 }

/-- The shot-release branch of GameScene.handlePlayerInput: call
executeShot and, when it returns launch data, register the attempt and
release the ball with that vector. -/
def GameScene.handleShotRelease (R : JSMath) (s : GameScene) : GameScene :=
  let res := Player.executeShot R s.player
  match res.1 with
  | none => { s with player := res.2 }
  | some sh =>
    { s with
      player := res.2
      rules := Rules.registerShotAttempt Team.player s.rules
      ball := Ball.release sh.vx sh.vy sh.vz s.ball }

/-- The scoring branch of GameScene.handleLiveBall: credit the shot to the
last holder (falling back to whoever has the ball), score it at the
shooter's position, clear both hasBall flags and the recovery timer, and
re-run the check-ball setup. -/
def GameScene.handleScore (R : JSMath) (s : GameScene) : GameScene :=
  let shooter := match s.ball.holderId with
    | some h => h
    | none => if s.player.hasBall = true then Team.player else Team.ai
  let shooterX := match shooter with
    | Team.player => s.player.x
    | Team.ai => s.ai.x
  let shooterY := match shooter with
    | Team.player => s.player.y
    | Team.ai => s.ai.y
  let s1 := { s with
              rules := Rules.scorePoints R shooter shooterX shooterY s.rules
              player := { s.player with hasBall := false }
              ai := { s.ai with hasBall := false }
              outOfBoundsTimer := none }
  GameScene.setupInitialPositions s1

/-- The last holder fallback used by the out-of-bounds branch:
ball.holderId, or the current possession when null. -/
def GameScene.lastHolder (s : GameScene) : Team :=
  match s.ball.holderId with
  | some h => h
  | none => s.rules.possession

/-- The out-of-bounds block of GameScene.handleLiveBall: arm a 3-second
timer the first tick the flag is set, decrement it on later ticks, cancel
it when the ball re-enters bounds, and on expiry flip possession to the
opposite of the last holder, clear both hasBall flags and re-run the
check-ball setup (the gameState field itself is not written). -/
def GameScene.handleOutOfBounds (dt : ℚ) (s : GameScene) : GameScene :=
  if s.ball.isOutOfBounds = true then
    match s.outOfBoundsTimer with
    | none => { s with outOfBoundsTimer := some 3 }
    | some t =>
      let t' := t - dt
      if t' ≤ 0 then
        let newPossession := (GameScene.lastHolder s).other
        let s1 := { s with
                    rules := Rules.changePossession newPossession s.rules
                    player := { s.player with hasBall := false }
                    ai := { s.ai with hasBall := false }
                    outOfBoundsTimer := none }
        GameScene.setupInitialPositions s1
      else { s with outOfBoundsTimer := some t' }
  else { s with outOfBoundsTimer := none }

/-- The ball-exclusivity invariant: the two players never both hold the
ball. -/
def atMostOneBall (s : GameScene) : Prop :=
  ¬(s.player.hasBall = true ∧ s.ai.hasBall = true)

/-- The orchestrator operations that grant or clear ball possession:
free-ball pickup, check-ball setup, the steal branch, the shot-release
branch, the scoring branch and the out-of-bounds branch. -/
inductive OrchestratorStep : GameScene → GameScene → Prop where
  | pickup (R : JSMath) (s : GameScene) :
      OrchestratorStep s (GameScene.handleBallPickup R s)
  | setup (s : GameScene) :
      OrchestratorStep s (GameScene.setupInitialPositions s)
  | steal (R : JSMath) (rand : ℚ) (s : GameScene) :
      OrchestratorStep s (GameScene.handleStealAttempt R rand s)
  | shotRelease (R : JSMath) (s : GameScene) :
      OrchestratorStep s (GameScene.handleShotRelease R s)
  | score (R : JSMath) (s : GameScene) :
      OrchestratorStep s (GameScene.handleScore R s)
  | outOfBounds (dt : ℚ) (s : GameScene) :
      OrchestratorStep s (GameScene.handleOutOfBounds dt s)

/-- A concrete instantiation of the abstract math record, usable wherever
a theorem does not depend on the defining property of the functions. -/
def mathStub : JSMath :=
  { sqrt := fun _ => 0, cos := fun _ => 0, sin := fun _ => 0, atan2 := fun _ _ => 0 }

/-- A concrete player at the check-ball spot with full stamina. -/
def basePlayer : Player :=
  { x := 15/2, y := 39/5, vx := 0, vy := 0, facing := 0, stamina := 100,
    isSprinting := false, hasBall := false, shotPower := 0, shotCharging := false,
    shotAngle := 0, stealCooldown := 0, stepBackCooldown := 0, invulnerableTime := 0 }

/-- A concrete free ball at midcourt, resting on the floor. -/
def baseBall : Ball :=
  { x := 15/2, y := 7, z := 3/25, vx := 0, vy := 0, vz := 0,
    state := BallState.free, holderId := none, hasScored := false,
    isOutOfBounds := false, justReleased := false, dribbleTime := 0 }

/-- The street scoring preset (CONFIG.GAME.SCORING_STREET). -/
def streetScoring : ScoringSystem := { INSIDE := 1, THREE_POINT := 2 }

/-- Default settings: 24-second shot clock, street scoring. -/
def baseSettings : GameSettings :=
  { shotClockDuration := Clock.fin 24, scoring := streetScoring }

/-- Zeroed stats. -/
def baseStats : Stats :=
  { playerShots := 0, playerMakes := 0, aiShots := 0, aiMakes := 0, fouls := 0 }

/-- A live-ball rules state with the default settings. -/
def baseRules : Rules :=
  { settings := baseSettings, playerScore := 0, aiScore := 0,
    possession := Team.player, needsCheckBall := false,
    shotClock := Clock.fin 24, shotClockActive := true,
    gameState := GState.liveBall, stats := baseStats }

/-- A concrete orchestrator state used to instantiate theorems. -/
def baseScene : GameScene :=
  { player := basePlayer, ai := { basePlayer with y := 21/5 },
    ball := baseBall, rules := baseRules, outOfBoundsTimer := none }

instance (s : GameScene) : Decidable (atMostOneBall s) :=
  inferInstanceAs (Decidable (¬(s.player.hasBall = true ∧ s.ai.hasBall = true)))

/-- The AI pickup branch always leaves exactly the AI with the ball. -/
lemma aiPickup_atMostOne (s : GameScene) : atMostOneBall (GameScene.aiPickup s) := by
  unfold atMostOneBall
  simp only [GameScene.aiPickup]
  split <;> simp

/-- The human pickup branch always leaves exactly the human with the
ball. -/
lemma playerPickup_atMostOne (s : GameScene) : atMostOneBall (GameScene.playerPickup s) := by
  unfold atMostOneBall
  simp only [GameScene.playerPickup]
  split <;> simp

/-- The check-ball setup always leaves exactly one player with the
ball. -/
lemma setup_atMostOne (s : GameScene) : atMostOneBall (GameScene.setupInitialPositions s) := by
  unfold atMostOneBall
  simp only [GameScene.setupInitialPositions]
  cases hposs : s.rules.possession <;> simp

/-- attemptSteal never changes the attacker's hasBall flag. -/
lemma attemptSteal_snd_hasBall (R : JSMath) (rand : ℚ) (p target : Player) :
    ((Player.attemptSteal R rand p target).2).hasBall = p.hasBall := by
  simp only [Player.attemptSteal]
  repeat' split
  all_goals rfl

/-- executeShot never grants the ball: if the resulting player holds the
ball, the input already did. -/
lemma executeShot_snd_hasBall (R : JSMath) (p : Player) :
    ((Player.executeShot R p).2).hasBall = true → p.hasBall = true := by
  simp only [Player.executeShot]
  split
  · exact fun h => h
  · intro h
    simp at h

/-- C1: the operations of the orchestrator that grant or clear the ball
(free-ball pickup, check-ball setup, successful steal, shot release,
score reset, out-of-bounds reset) preserve the invariant that at most one
of the two players has hasBall = true: each granting path sets one flag
true and the other false in the same operation. -/
theorem C1_ball_exclusivity (s s' : GameScene)
    (hstep : OrchestratorStep s s') (h : atMostOneBall s) : atMostOneBall s' := by
  cases hstep with
  | pickup R s =>
    simp only [GameScene.handleBallPickup]
    split <;> split
    · exact aiPickup_atMostOne _
    · exact playerPickup_atMostOne _
    · exact aiPickup_atMostOne _
    · exact h
  | setup s => exact setup_atMostOne s
  | steal R rand s =>
    simp only [GameScene.handleStealAttempt]
    split
    · intro hc
      simpa using hc.2
    · intro hc
      refine h ⟨?_, hc.2⟩
      rw [← attemptSteal_snd_hasBall R rand s.player s.ai]
      exact hc.1
  | shotRelease R s =>
    simp only [GameScene.handleShotRelease]
    rcases hm : (Player.executeShot R s.player).1 with _ | sh <;>
      simp only [hm] <;>
      exact fun hc => h ⟨executeShot_snd_hasBall R s.player hc.1, hc.2⟩
  | score R s => exact setup_atMostOne _
  | outOfBounds dt s =>
    simp only [GameScene.handleOutOfBounds]
    repeat' split
    all_goals first
      | exact setup_atMostOne _
      | exact h

/-- Witness for C1 at a concrete scene, stepping through the check-ball
setup. -/
theorem C1_ball_exclusivity_witness :
    atMostOneBall baseScene ∧ atMostOneBall (GameScene.setupInitialPositions baseScene) :=
  ⟨by decide,
   C1_ball_exclusivity baseScene _ (OrchestratorStep.setup baseScene) (by decide)⟩

/-- The human pickup branch does not move the ball or the AI. -/
lemma playerPickup_coords (s : GameScene) :
    (GameScene.playerPickup s).ball.x = s.ball.x ∧
    (GameScene.playerPickup s).ball.y = s.ball.y ∧
    (GameScene.playerPickup s).ai.x = s.ai.x ∧
    (GameScene.playerPickup s).ai.y = s.ai.y := by
  simp only [GameScene.playerPickup]
  split <;> simp

/-- The AI pickup branch grants the ball to the AI, revokes it from the
human, and marks the ball held by the AI. -/
lemma aiPickup_result (s : GameScene) :
    (GameScene.aiPickup s).ai.hasBall = true ∧
    (GameScene.aiPickup s).player.hasBall = false ∧
    (GameScene.aiPickup s).ball.state = BallState.held ∧
    (GameScene.aiPickup s).ball.holderId = some Team.ai := by
  simp only [GameScene.aiPickup]
  split <;> simp

/-- C10: when the ball is free and both players are inside the pickup
radius, handleBallPickup awards the ball to the AI: the AI test runs
second and overwrites the human's pickup within the same call. -/
theorem C10_simultaneous_pickup (R : JSMath) (s : GameScene)
    (hfree : s.ball.state = BallState.free)
    (hp : distance R s.ball.x s.ball.y s.player.x s.player.y < playerRadius * 3)
    (ha : distance R s.ball.x s.ball.y s.ai.x s.ai.y < playerRadius * 3) :
    (GameScene.handleBallPickup R s).ai.hasBall = true ∧
    (GameScene.handleBallPickup R s).player.hasBall = false ∧
    (GameScene.handleBallPickup R s).ball.state = BallState.held ∧
    (GameScene.handleBallPickup R s).ball.holderId = some Team.ai := by
  have hcoords := playerPickup_coords s
  have heq : GameScene.handleBallPickup R s = GameScene.aiPickup (GameScene.playerPickup s) := by
    simp only [GameScene.handleBallPickup]
    rw [if_pos hp, if_pos (by rw [hcoords.1, hcoords.2.1, hcoords.2.2.1, hcoords.2.2.2]; exact ha)]
  rw [heq]
  exact aiPickup_result _

/-- Witness for C10 at a concrete scene with both players in pickup
range. -/
theorem C10_simultaneous_pickup_witness :
    baseScene.ball.state = BallState.free ∧
    distance mathStub baseScene.ball.x baseScene.ball.y baseScene.player.x baseScene.player.y < playerRadius * 3 ∧
    distance mathStub baseScene.ball.x baseScene.ball.y baseScene.ai.x baseScene.ai.y < playerRadius * 3 ∧
    (GameScene.handleBallPickup mathStub baseScene).ai.hasBall = true :=
  ⟨by decide, by with_unfolding_all decide, by with_unfolding_all decide,
   (C10_simultaneous_pickup mathStub baseScene (by decide)
     (by with_unfolding_all decide) (by with_unfolding_all decide)).1⟩

/-- The check-ball setup does not modify the rules object. -/
lemma setup_rules (s : GameScene) :
    (GameScene.setupInitialPositions s).rules = s.rules := by
  simp only [GameScene.setupInitialPositions]
  cases hposs : s.rules.possession <;> simp

/-- The check-ball setup does not modify the recovery timer. -/
lemma setup_timer (s : GameScene) :
    (GameScene.setupInitialPositions s).outOfBoundsTimer = s.outOfBoundsTimer := by
  simp only [GameScene.setupInitialPositions]
  cases hposs : s.rules.possession <;> simp

/-- The check-ball setup leaves the ball held. -/
lemma setup_ball_state (s : GameScene) :
    (GameScene.setupInitialPositions s).ball.state = BallState.held := by
  simp only [GameScene.setupInitialPositions]
  cases hposs : s.rules.possession <;> simp [Ball.attachTo]

/-- The check-ball setup attaches the ball to the possessing side. -/
lemma setup_ball_holder (s : GameScene) :
    (GameScene.setupInitialPositions s).ball.holderId = some s.rules.possession := by
  simp only [GameScene.setupInitialPositions]
  cases hposs : s.rules.possession <;> simp [Ball.attachTo, hposs]

/-- C2 (amended): the out-of-bounds block of handleLiveBall arms a fixed
3-second timer on the first flagged tick, decrements it on later flagged
ticks, cancels it when the flag clears, and on expiry flips possession
exactly once to the opposite of the last holder (ball.holderId, falling
back to the opposite of current possession when null), resets the shot
clock, repositions the players and attaches the ball to the new
possessor; the rules gameState field is left unchanged (it stays
liveBall), it is not reset to the checkBall state. -/
theorem C2_out_of_bounds_recovery (dt : ℚ) (s : GameScene) :
    (s.ball.isOutOfBounds = true → s.outOfBoundsTimer = none →
      GameScene.handleOutOfBounds dt s = { s with outOfBoundsTimer := some 3 }) ∧
    (∀ t : ℚ, s.ball.isOutOfBounds = true → s.outOfBoundsTimer = some t → 0 < t - dt →
      GameScene.handleOutOfBounds dt s = { s with outOfBoundsTimer := some (t - dt) }) ∧
    (s.ball.isOutOfBounds = false →
      GameScene.handleOutOfBounds dt s = { s with outOfBoundsTimer := none }) ∧
    (∀ t : ℚ, s.ball.isOutOfBounds = true → s.outOfBoundsTimer = some t → t - dt ≤ 0 →
      (GameScene.handleOutOfBounds dt s).rules.possession = (GameScene.lastHolder s).other ∧
      (GameScene.handleOutOfBounds dt s).rules.gameState = s.rules.gameState ∧
      (GameScene.handleOutOfBounds dt s).rules.needsCheckBall = true ∧
      (GameScene.handleOutOfBounds dt s).rules.shotClock = s.rules.settings.shotClockDuration ∧
      (GameScene.handleOutOfBounds dt s).outOfBoundsTimer = none ∧
      (GameScene.handleOutOfBounds dt s).ball.state = BallState.held ∧
      (GameScene.handleOutOfBounds dt s).ball.holderId = some (GameScene.lastHolder s).other) := by
  refine ⟨?_, ?_, ?_, ?_⟩
  · intro hb ht
    simp [GameScene.handleOutOfBounds, hb, ht]
  · intro t hb ht hlt
    simp [GameScene.handleOutOfBounds, hb, ht, hlt.not_le]
  · intro hb
    simp [GameScene.handleOutOfBounds, hb]
  · intro t hb ht hexp
    have heq : GameScene.handleOutOfBounds dt s =
        GameScene.setupInitialPositions
          { s with
            rules := Rules.changePossession (GameScene.lastHolder s).other s.rules
            player := { s.player with hasBall := false }
            ai := { s.ai with hasBall := false }
            outOfBoundsTimer := none } := by
      simp [GameScene.handleOutOfBounds, hb, ht, hexp]
    rw [heq]
    refine ⟨?_, ?_, ?_, ?_, ?_, ?_, ?_⟩
    · rw [setup_rules] <;> rfl
    · rw [setup_rules] <;> rfl
    · rw [setup_rules] <;> rfl
    · rw [setup_rules] <;> rfl
    · rw [setup_timer] <;> rfl
    · exact setup_ball_state _
    · rw [setup_ball_holder] <;> rfl

/-- A concrete live-ball state with the ball flagged out of bounds, last
held by the human, and no timer running. -/
def oobScene : GameScene :=
  { player := basePlayer
    ai := { basePlayer with y := 21/5 }
    ball := { baseBall with
              x := -1
              state := BallState.inFlight
              holderId := some Team.player
              isOutOfBounds := true }
    rules := baseRules
    outOfBoundsTimer := none }

/-- The same state with the recovery timer about to expire. -/
def oobExpiryScene : GameScene := { oobScene with outOfBoundsTimer := some (1/2) }

/-- Counterexample to C2 as stated: running the out-of-bounds block
through arming and three 1-second ticks reaches expiry, flips possession
to the AI, but leaves gameState at liveBall, not checkBall. -/
theorem C2_counterexample :
    oobScene.rules.gameState = GState.liveBall ∧
    oobScene.ball.isOutOfBounds = true ∧
    oobScene.ball.holderId = some Team.player ∧
    (GameScene.handleOutOfBounds 1 (GameScene.handleOutOfBounds 1 (GameScene.handleOutOfBounds 1
      (GameScene.handleOutOfBounds 1 oobScene)))).rules.possession = Team.ai ∧
    (GameScene.handleOutOfBounds 1 (GameScene.handleOutOfBounds 1 (GameScene.handleOutOfBounds 1
      (GameScene.handleOutOfBounds 1 oobScene)))).rules.gameState = GState.liveBall ∧
    GState.liveBall ≠ GState.checkBall := by with_unfolding_all decide

/-- Witness for C2 (amended) at the expiring concrete state. -/
theorem C2_out_of_bounds_recovery_witness :
    oobExpiryScene.ball.isOutOfBounds = true ∧
    oobExpiryScene.outOfBoundsTimer = some (1/2) ∧
    ((1 : ℚ)/2 - 1 ≤ 0) ∧
    (GameScene.handleOutOfBounds 1 oobExpiryScene).rules.possession =
      (GameScene.lastHolder oobExpiryScene).other :=
  ⟨by decide, by with_unfolding_all decide, by with_unfolding_all decide,
   ((C2_out_of_bounds_recovery 1 oobExpiryScene).2.2.2 (1/2) (by decide)
     (by with_unfolding_all decide) (by with_unfolding_all decide)).1⟩

/-- C3 (amended): Rules.update changes the shot clock only while armed
and live; there it performs the JS decrement shotClock -= dt (Infinity
staying Infinity) and, when the decremented value is at most zero, the
violation handler resets it to the configured duration; every call to
changePossession resets the clock to the configured duration, which stays
the Infinity sentinel if configured so. -/
theorem C3_shot_clock (dt : ℚ) (r : Rules) :
    (¬(r.shotClockActive = true ∧ r.gameState = GState.liveBall) →
      (Rules.update dt r).shotClock = r.shotClock) ∧
    (r.shotClockActive = true → r.gameState = GState.liveBall →
      Clock.le0 (Clock.sub r.shotClock dt) = false →
      (Rules.update dt r).shotClock = Clock.sub r.shotClock dt) ∧
    (r.shotClockActive = true → r.gameState = GState.liveBall →
      Clock.le0 (Clock.sub r.shotClock dt) = true →
      (Rules.update dt r).shotClock = r.settings.shotClockDuration) ∧
    (∀ team : Team, (Rules.changePossession team r).shotClock = r.settings.shotClockDuration) := by
  refine ⟨?_, ?_, ?_, fun _ => rfl⟩
  · intro hn
    simp [Rules.update, hn]
  · intro h1 h2 hle
    simp [Rules.update, h1, h2, hle]
  · intro h1 h2 hle
    simp [Rules.update, Rules.handleShotClockViolation, Rules.changePossession,
      Rules.resetShotClock, h1, h2, hle]

/-- A live rules state with one second on the clock. -/
def lowClockRules : Rules := { baseRules with shotClock := Clock.fin 1 }

/-- Counterexample to C3 as stated: with the clock armed and live, a
2-second update on a 1-second clock does not decrease the clock by dt; the
violation handler resets it to the configured 24-second duration. -/
theorem C3_counterexample :
    lowClockRules.shotClockActive = true ∧
    lowClockRules.gameState = GState.liveBall ∧
    Clock.sub lowClockRules.shotClock 2 = Clock.fin (-1) ∧
    (Rules.update 2 lowClockRules).shotClock = Clock.fin 24 ∧
    (Rules.update 2 lowClockRules).shotClock ≠ Clock.sub lowClockRules.shotClock 2 := by
  with_unfolding_all decide

/-- Witness for C3 (amended): a plain decrement on the 24-second clock. -/
theorem C3_shot_clock_witness :
    baseRules.shotClockActive = true ∧
    baseRules.gameState = GState.liveBall ∧
    Clock.le0 (Clock.sub baseRules.shotClock 1) = false ∧
    (Rules.update 1 baseRules).shotClock = Clock.sub baseRules.shotClock 1 :=
  ⟨rfl, rfl, by with_unfolding_all decide,
   (C3_shot_clock 1 baseRules).2.1 rfl rfl (by with_unfolding_all decide)⟩

/-- C4: scorePoints adds the active preset's THREE_POINT value when the
shot location is at least the arc radius from the rim and the INSIDE
value otherwise, credits the make to the scoring team's stats, switches
possession to the scoring team (re-check to the scorer), disarms the shot
clock, and the resulting gameState is gameOver exactly when an updated
score reaches the win threshold and checkBall otherwise. -/
theorem C4_score_points (R : JSMath) (team : Team) (x y : ℚ) (r : Rules) :
    (isThreePoint R x y = true ↔ threePointRadius ≤ distance R x y rimX rimY) ∧
    (Rules.scorePoints R team x y r).possession = team ∧
    (Rules.scorePoints R team x y r).shotClockActive = false ∧
    (team = Team.player →
      (Rules.scorePoints R team x y r).playerScore =
        r.playerScore + (if isThreePoint R x y then r.settings.scoring.THREE_POINT
                         else r.settings.scoring.INSIDE) ∧
      (Rules.scorePoints R team x y r).aiScore = r.aiScore ∧
      (Rules.scorePoints R team x y r).stats.playerMakes = r.stats.playerMakes + 1 ∧
      (Rules.scorePoints R team x y r).gameState =
        (if winScore ≤ r.playerScore + (if isThreePoint R x y then r.settings.scoring.THREE_POINT
                                        else r.settings.scoring.INSIDE) then GState.gameOver
         else if winScore ≤ r.aiScore then GState.gameOver
         else GState.checkBall)) ∧
    (team = Team.ai →
      (Rules.scorePoints R team x y r).aiScore =
        r.aiScore + (if isThreePoint R x y then r.settings.scoring.THREE_POINT
                     else r.settings.scoring.INSIDE) ∧
      (Rules.scorePoints R team x y r).playerScore = r.playerScore ∧
      (Rules.scorePoints R team x y r).stats.aiMakes = r.stats.aiMakes + 1 ∧
      (Rules.scorePoints R team x y r).gameState =
        (if winScore ≤ r.playerScore then GState.gameOver
         else if winScore ≤ r.aiScore + (if isThreePoint R x y then r.settings.scoring.THREE_POINT
                                         else r.settings.scoring.INSIDE) then GState.gameOver
         else GState.checkBall)) := by
  refine ⟨by simp [isThreePoint], ?_, ?_, ?_, ?_⟩
  · cases team <;>
      (simp only [Rules.scorePoints, Rules.changePossession, Rules.resetShotClock]
       split_ifs <;> rfl)
  · cases team <;>
      (simp only [Rules.scorePoints, Rules.changePossession, Rules.resetShotClock]
       split_ifs <;> rfl)
  · rintro rfl
    refine ⟨?_, ?_, ?_, ?_⟩ <;>
      (simp only [Rules.scorePoints, Rules.changePossession, Rules.resetShotClock]
       split_ifs <;> rfl)
  · rintro rfl
    refine ⟨?_, ?_, ?_, ?_⟩ <;>
      (simp only [Rules.scorePoints, Rules.changePossession, Rules.resetShotClock]
       split_ifs <;> rfl)

/-- Witness for C4: an inside make by the human from the check spot on a
fresh game, leaving the score at 1 and the state at checkBall. -/
theorem C4_score_points_witness :
    (Rules.scorePoints mathStub Team.player (15/2) (39/5) baseRules).possession = Team.player ∧
    (Rules.scorePoints mathStub Team.player (15/2) (39/5) baseRules).shotClockActive = false ∧
    (Rules.scorePoints mathStub Team.player (15/2) (39/5) baseRules).playerScore =
      baseRules.playerScore +
        (if isThreePoint mathStub (15/2) (39/5) then baseRules.settings.scoring.THREE_POINT
         else baseRules.settings.scoring.INSIDE) :=
  ⟨(C4_score_points mathStub Team.player (15/2) (39/5) baseRules).2.1,
   (C4_score_points mathStub Team.player (15/2) (39/5) baseRules).2.2.1,
   ((C4_score_points mathStub Team.player (15/2) (39/5) baseRules).2.2.2.1 rfl).1⟩

/-- Ballistic integration does not touch the scored flag. -/
lemma integrate_hasScored (dt : ℚ) (b : Ball) :
    (Ball.integrate dt b).hasScored = b.hasScored := rfl

/-- The ground block does not touch the scored flag. -/
lemma groundStep_hasScored (b : Ball) :
    (Ball.groundStep b).hasScored = b.hasScored := by
  simp only [Ball.groundStep]
  split_ifs <;> rfl

/-- The backboard block does not touch the scored flag. -/
lemma backboardStep_hasScored (b : Ball) :
    (Ball.backboardStep b).hasScored = b.hasScored := by
  simp only [Ball.backboardStep]
  split_ifs <;> rfl

/-- The bounds block does not touch the scored flag. -/
lemma checkBoundsStep_hasScored (b : Ball) :
    (Ball.checkBoundsStep b).hasScored = b.hasScored := by
  simp only [Ball.checkBoundsStep]
  split_ifs <;> rfl

/-- The rim block marks a new score exactly under the source's guard:
inFlight, descending, not yet scored, and passing the rim collision
test. -/
lemma rimStep_new_score_iff (R : JSMath) (b : Ball) :
    ((Ball.rimStep R b).hasScored = true ∧ b.hasScored = false) ↔
      (b.state = BallState.inFlight ∧ b.vz < 0 ∧ b.hasScored = false ∧
       checkRimCollision R b.x b.y b.z rimX rimY rimZ = true) := by
  simp only [Ball.rimStep]
  split_ifs with h1 h2 <;> simp_all

/-- C5: isScore is true exactly once hasScored is set and the ball has
fallen below rim height; hasScored is set at most once per flight, only
while inFlight, descending and not yet scored, when the 2D distance to
the rim center is within rim radius plus the magnetic window and the
vertical offset is within twice the ball radius; that contact only damps
vz by the factor 0.7 and leaves everything else (including the flight
state) unchanged; and a full update can newly set hasScored only through
that rim test on the integrated state. -/
theorem C5_score_detection (R : JSMath) (b : Ball) :
    (Ball.isScore b = true ↔ (b.hasScored = true ∧ b.z < rimZ)) ∧
    (b.hasScored = true → Ball.rimStep R b = b) ∧
    (((Ball.rimStep R b).hasScored = true ∧ b.hasScored = false) ↔
      (b.state = BallState.inFlight ∧ b.vz < 0 ∧ b.hasScored = false ∧
       checkRimCollision R b.x b.y b.z rimX rimY rimZ = true)) ∧
    (b.state = BallState.inFlight → b.vz < 0 → b.hasScored = false →
      checkRimCollision R b.x b.y b.z rimX rimY rimZ = true →
      Ball.rimStep R b = { b with hasScored := true, vz := b.vz * (7/10) }) ∧
    (checkRimCollision R b.x b.y b.z rimX rimY rimZ = true ↔
      (|b.z - rimZ| ≤ ballRadius * 2 ∧
       distance R b.x b.y rimX rimY ≤ rimRadius + magneticWindow)) ∧
    (∀ (osc : ℚ → ℚ) (dt : ℚ),
      (Ball.update R osc dt b).hasScored = true →
      b.hasScored = true ∨
      ((Ball.groundStep (Ball.integrate dt b)).state = BallState.inFlight ∧
       (Ball.groundStep (Ball.integrate dt b)).vz < 0 ∧
       checkRimCollision R (Ball.groundStep (Ball.integrate dt b)).x
         (Ball.groundStep (Ball.integrate dt b)).y
         (Ball.groundStep (Ball.integrate dt b)).z rimX rimY rimZ = true)) := by
  refine ⟨?_, ?_, rimStep_new_score_iff R b, ?_, ?_, ?_⟩
  · simp [Ball.isScore]
  · intro hb
    simp [Ball.rimStep, hb]
  · intro h1 h2 h3 h4
    simp [Ball.rimStep, h1, h2, h3, h4]
  · unfold checkRimCollision
    split_ifs with h
    · simp [h.not_le]
    · simp [not_lt.mp h]
  · intro osc dt h
    by_cases hheld : b.state = BallState.held
    · left
      rw [Ball.update, if_pos hheld] at h
      exact h
    · rw [Ball.update, if_neg hheld, checkBoundsStep_hasScored, backboardStep_hasScored] at h
      by_cases hs : b.hasScored = true
      · exact Or.inl hs
      · right
        have hmid : (Ball.groundStep (Ball.integrate dt b)).hasScored = false := by
          rw [groundStep_hasScored, integrate_hasScored]
          simpa using hs
        have hcond := (rimStep_new_score_iff R (Ball.groundStep (Ball.integrate dt b))).mp ⟨h, hmid⟩
        exact ⟨hcond.1, hcond.2.1, hcond.2.2.2⟩

/-- A concrete descending ball exactly at the rim center. -/
def rimBall : Ball :=
  { x := 15/2, y := 6/5, z := 61/20, vx := 0, vy := 0, vz := -1,
    state := BallState.inFlight, holderId := some Team.player,
    hasScored := false, isOutOfBounds := false, justReleased := true,
    dribbleTime := 0 }

/-- Witness for C5: the descending rim contact marks the score and only
damps vz. -/
theorem C5_score_detection_witness :
    rimBall.state = BallState.inFlight ∧ rimBall.vz < 0 ∧ rimBall.hasScored = false ∧
    checkRimCollision mathStub rimBall.x rimBall.y rimBall.z rimX rimY rimZ = true ∧
    Ball.rimStep mathStub rimBall = { rimBall with hasScored := true, vz := rimBall.vz * (7/10) } :=
  ⟨rfl, by with_unfolding_all decide, rfl, by with_unfolding_all decide,
   (C5_score_detection mathStub rimBall).2.2.2.1 rfl (by with_unfolding_all decide) rfl
     (by with_unfolding_all decide)⟩

/-- C6: executeShot is a no-op returning null unless charging and holding
the ball; otherwise it clears both flags, changes nothing else on the
player, and returns a vector whose horizontal speed is the charge power
times the distance-indexed optimal power (SHOT_BASE_SPEED plus distance
times SHOT_DISTANCE_FACTOR) times the accuracy factor, reduced exactly
when stamina is below the low-stamina threshold; the ball is not touched
by executeShot: the orchestrator's release branch feeds the returned
vector to Ball.release. -/
theorem C6_execute_shot (R : JSMath) (p : Player) :
    (¬(p.shotCharging = true ∧ p.hasBall = true) →
      Player.executeShot R p = (none, p)) ∧
    (p.shotCharging = true → p.hasBall = true →
      Player.executeShot R p =
        (some { vx := R.cos (R.atan2 (rimY - p.y) (rimX - p.x)) *
                  (p.shotPower * calculateOptimalShotPower (distance R p.x p.y rimX rimY) *
                   (if p.stamina < lowStaminaThreshold then lowStaminaAccuracyPenalty else 1))
                vy := R.sin (R.atan2 (rimY - p.y) (rimX - p.x)) *
                  (p.shotPower * calculateOptimalShotPower (distance R p.x p.y rimX rimY) *
                   (if p.stamina < lowStaminaThreshold then lowStaminaAccuracyPenalty else 1))
                vz := R.sqrt (2 * gravity * rimHeight) * (4/5 + p.shotPower * (2/5))
                power := p.shotPower },
         { p with shotCharging := false, hasBall := false })) ∧
    (∀ (s : GameScene) (sh : Shot) (p' : Player),
      Player.executeShot R s.player = (some sh, p') →
      (GameScene.handleShotRelease R s).ball = Ball.release sh.vx sh.vy sh.vz s.ball) := by
  refine ⟨?_, ?_, ?_⟩
  · intro hn
    have hcond : p.shotCharging = false ∨ p.hasBall = false := by
      cases hc : p.shotCharging
      · exact Or.inl rfl
      · cases hb : p.hasBall
        · exact Or.inr rfl
        · exact absurd ⟨hc, hb⟩ hn
    unfold Player.executeShot
    rw [if_pos hcond]
  · intro h1 h2
    have hcond : ¬(p.shotCharging = false ∨ p.hasBall = false) := by
      simp [h1, h2]
    unfold Player.executeShot
    rw [if_neg hcond]
  · intro s sh p' hex
    simp [GameScene.handleShotRelease, hex]

/-- A concrete player charging a shot at half power. -/
def pShooter : Player :=
  { basePlayer with hasBall := true, shotCharging := true, shotPower := 1/2 }

/-- Witness for C6: releasing the charged shot clears both flags. -/
theorem C6_execute_shot_witness :
    pShooter.shotCharging = true ∧ pShooter.hasBall = true ∧
    (Player.executeShot mathStub pShooter).2.hasBall = false ∧
    (Player.executeShot mathStub pShooter).2.shotCharging = false := by
  refine ⟨rfl, rfl, ?_, ?_⟩ <;>
    rw [(C6_execute_shot mathStub pShooter).2.1 rfl rfl]

/-- C7: attemptSteal returns false with the attacker's cooldown untouched
exactly when one of the four reject conditions holds (cooldown active,
target without ball, target invulnerable, distance beyond three player
radii); otherwise it arms the cooldown and succeeds exactly when the
random sample falls below 0.3 times (1 minus distance over three player
radii), a chance decaying linearly to zero at the cutoff. -/
theorem C7_attempt_steal (R : JSMath) (rand : ℚ) (p target : Player) :
    (((Player.attemptSteal R rand p target).1 = false ∧
      (Player.attemptSteal R rand p target).2.stealCooldown = p.stealCooldown) ↔
      (0 < p.stealCooldown ∨ target.hasBall = false ∨ 0 < target.invulnerableTime ∨
       playerRadius * 3 < distance R p.x p.y target.x target.y)) ∧
    (¬(0 < p.stealCooldown ∨ target.hasBall = false ∨ 0 < target.invulnerableTime ∨
       playerRadius * 3 < distance R p.x p.y target.x target.y) →
      (Player.attemptSteal R rand p target).2.stealCooldown = stealCooldownConst ∧
      ((Player.attemptSteal R rand p target).1 = true ↔
        rand < (3/10) * (1 - distance R p.x p.y target.x target.y / (playerRadius * 3)))) := by
  have hpos : (0 : ℚ) < stealCooldownConst := by norm_num [stealCooldownConst]
  simp only [Player.attemptSteal]
  split_ifs with h1 h2 h3 h4
  · exact ⟨by simp [h1], fun hn => absurd (Or.inl h1) hn⟩
  · exact ⟨by simp [h2], fun hn => absurd (Or.inr (Or.inl h2)) hn⟩
  · exact ⟨by simp [h3], fun hn => absurd (Or.inr (Or.inr (Or.inl h3))) hn⟩
  · exact ⟨by simp [h4], fun hn => absurd (Or.inr (Or.inr (Or.inr h4))) hn⟩
  · refine ⟨⟨?_, ?_⟩, fun _ => ⟨rfl, by simp⟩⟩
    · rintro ⟨-, hcool⟩
      exact absurd (hcool ▸ hpos) h1
    · intro hdisj
      rcases hdisj with h | h | h | h
      · exact absurd h h1
      · exact absurd h h2
      · exact absurd h h3
      · exact absurd h h4

/-- A concrete target holding the ball with no invulnerability. -/
def stealTarget : Player := { basePlayer with hasBall := true }

/-- Witness for C7: with no reject condition, the cooldown is armed and a
zero sample succeeds against the 0.3 base chance. -/
theorem C7_attempt_steal_witness :
    ¬(0 < basePlayer.stealCooldown ∨ stealTarget.hasBall = false ∨
      0 < stealTarget.invulnerableTime ∨
      playerRadius * 3 < distance mathStub basePlayer.x basePlayer.y stealTarget.x stealTarget.y) ∧
    (Player.attemptSteal mathStub 0 basePlayer stealTarget).2.stealCooldown = stealCooldownConst ∧
    (Player.attemptSteal mathStub 0 basePlayer stealTarget).1 = true :=
  ⟨by with_unfolding_all decide,
   ((C7_attempt_steal mathStub 0 basePlayer stealTarget).2 (by with_unfolding_all decide)).1,
   (((C7_attempt_steal mathStub 0 basePlayer stealTarget).2 (by with_unfolding_all decide)).2).mpr
     (by with_unfolding_all decide)⟩

/-- C8 (amended): the implication shotCharging implies hasBall is
preserved by startShot (which arms charging only while holding),
chargeShot and executeShot (which clears both together); but the
orchestrator's steal branch does not preserve it: a successful steal
clears the victim's hasBall while leaving its shotCharging flag set. -/
theorem C8_charging_implies_ball (R : JSMath) (rand : ℚ) :
    (∀ (angle : ℚ) (p : Player), (p.shotCharging = true → p.hasBall = true) →
      ((Player.startShot angle p).shotCharging = true →
        (Player.startShot angle p).hasBall = true)) ∧
    (∀ (dt : ℚ) (p : Player), (p.shotCharging = true → p.hasBall = true) →
      ((Player.chargeShot dt p).shotCharging = true →
        (Player.chargeShot dt p).hasBall = true)) ∧
    (∀ p : Player, (p.shotCharging = true → p.hasBall = true) →
      ((Player.executeShot R p).2.shotCharging = true →
        (Player.executeShot R p).2.hasBall = true)) ∧
    (∀ s : GameScene, (Player.attemptSteal R rand s.player s.ai).1 = true →
      s.ai.shotCharging = true →
      (GameScene.handleStealAttempt R rand s).ai.shotCharging = true ∧
      (GameScene.handleStealAttempt R rand s).ai.hasBall = false) := by
  refine ⟨?_, ?_, ?_, ?_⟩
  · intro angle p hpre
    unfold Player.startShot
    split_ifs with h
    · exact hpre
    · intro _
      simpa using h
  · intro dt p hpre
    unfold Player.chargeShot
    split_ifs with h
    · exact hpre
    · exact hpre
  · intro p hpre
    unfold Player.executeShot
    split_ifs with h
    · exact hpre
    · intro hcc
      simp at hcc
  · intro s hsucc hcharg
    simp only [GameScene.handleStealAttempt]
    rw [if_pos hsucc]
    exact ⟨hcharg, rfl⟩

/-- The abstract square root faithful at the 3-4-5 radicand: positions
half a meter apart give the squared distance 1/4, whose exact root is
1/2 (Math.sqrt agrees there). -/
def mathRoot345 : JSMath :=
  { sqrt := fun q => if q = 1/4 then 1/2 else 0
    cos := fun _ => 0
    sin := fun _ => 0
    atan2 := fun _ _ => 0 }

/-- A concrete live state in which the AI holds the ball and is charging
a shot, with the human half a meter away along a 3-4-5 direction: well
inside the 1.05-meter steal range, and at a squared distance whose true
square root is the rational 1/2. -/
def chargingScene : GameScene :=
  { player := basePlayer
    ai := { basePlayer with
            x := 15/2 + 3/10
            y := 39/5 + 2/5
            hasBall := true
            shotCharging := true
            shotPower := 1/2 }
    ball := { baseBall with state := BallState.held, holderId := some Team.ai }
    rules := { baseRules with possession := Team.ai }
    outOfBoundsTimer := none }

/-- Counterexample to C8 as stated: at a half-meter separation, where the
abstract square root agrees with the true one (the radicand is 1/4, the
distance 1/2, inside the three-radius cutoff), a successful steal against
the charging AI leaves the AI with shotCharging = true and
hasBall = false, violating the claimed implication. -/
theorem C8_counterexample :
    chargingScene.ai.shotCharging = true ∧ chargingScene.ai.hasBall = true ∧
    mathRoot345.sqrt (distSq chargingScene.player.x chargingScene.player.y
        chargingScene.ai.x chargingScene.ai.y) ^ 2
      = distSq chargingScene.player.x chargingScene.player.y
          chargingScene.ai.x chargingScene.ai.y ∧
    distance mathRoot345 chargingScene.player.x chargingScene.player.y
        chargingScene.ai.x chargingScene.ai.y ≤ playerRadius * 3 ∧
    (GameScene.handleStealAttempt mathRoot345 0 chargingScene).ai.shotCharging = true ∧
    (GameScene.handleStealAttempt mathRoot345 0 chargingScene).ai.hasBall = false := by
  with_unfolding_all decide

/-- Witness for C8 (amended) at the concrete charging scene. -/
theorem C8_charging_implies_ball_witness :
    (Player.attemptSteal mathRoot345 0 chargingScene.player chargingScene.ai).1 = true ∧
    chargingScene.ai.shotCharging = true ∧
    (GameScene.handleStealAttempt mathRoot345 0 chargingScene).ai.shotCharging = true :=
  ⟨by with_unfolding_all decide, rfl,
   ((C8_charging_implies_ball mathRoot345 0).2.2.2 chargingScene
     (by with_unfolding_all decide) rfl).1⟩

/-- The algebra of the symmetric push: moving both endpoints by half the
overlap along the connecting normal puts them at exactly the contact
distance c, given that d is a true square root of the squared
distance. -/
lemma push_symmetric (x1 x2 y1 y2 d c : ℚ) (hd : d ≠ 0)
    (hsq : d ^ 2 = (x2 - x1) ^ 2 + (y2 - y1) ^ 2) :
    (x2 + (x2 - x1) / d * (c - d) * (1/2) - (x1 - (x2 - x1) / d * (c - d) * (1/2))) ^ 2 +
      (y2 + (y2 - y1) / d * (c - d) * (1/2) - (y1 - (y2 - y1) / d * (c - d) * (1/2))) ^ 2
      = c ^ 2 := by
  have e1 : x2 + (x2 - x1) / d * (c - d) * (1/2) - (x1 - (x2 - x1) / d * (c - d) * (1/2))
      = (x2 - x1) * c / d := by
    field_simp
    ring
  have e2 : y2 + (y2 - y1) / d * (c - d) * (1/2) - (y1 - (y2 - y1) / d * (c - d) * (1/2))
      = (y2 - y1) * c / d := by
    field_simp
    ring
  rw [e1, e2]
  have e3 : ((x2 - x1) * c / d) ^ 2 + ((y2 - y1) * c / d) ^ 2
      = ((x2 - x1) ^ 2 + (y2 - y1) ^ 2) * c ^ 2 / d ^ 2 := by
    ring
  rw [e3, ← hsq]
  exact mul_div_cancel_left₀ _ (pow_ne_zero 2 hd)

/-- C9: resolvePlayerCollision is guarded and total: at zero distance it
changes nothing (no division occurs), at separation at least twice the
player radius it changes nothing, and on genuine overlap it pushes both
players by half the overlap along the connecting normal, after which
their squared distance is exactly (2 radius) squared and their midpoint
is unchanged.  The hypothesis states that the abstract square root is
faithful at the single radicand the code takes it of. -/
theorem C9_resolve_collision (R : JSMath) (p1 p2 : Player)
    (hsq : distance R p1.x p1.y p2.x p2.y ^ 2 = distSq p1.x p1.y p2.x p2.y) :
    (p1.x = p2.x ∧ p1.y = p2.y → resolvePlayerCollision R p1 p2 = (p1, p2)) ∧
    (playerRadius * 2 ≤ distance R p1.x p1.y p2.x p2.y →
      resolvePlayerCollision R p1 p2 = (p1, p2)) ∧
    (0 < distance R p1.x p1.y p2.x p2.y →
      distance R p1.x p1.y p2.x p2.y < playerRadius * 2 →
      distSq (resolvePlayerCollision R p1 p2).1.x (resolvePlayerCollision R p1 p2).1.y
          (resolvePlayerCollision R p1 p2).2.x (resolvePlayerCollision R p1 p2).2.y
        = (playerRadius * 2) ^ 2 ∧
      (resolvePlayerCollision R p1 p2).1.x + (resolvePlayerCollision R p1 p2).2.x = p1.x + p2.x ∧
      (resolvePlayerCollision R p1 p2).1.y + (resolvePlayerCollision R p1 p2).2.y = p1.y + p2.y) := by
  refine ⟨?_, ?_, ?_⟩
  · rintro ⟨hx, hy⟩
    have h0 : distSq p1.x p1.y p2.x p2.y = 0 := by
      simp [distSq, hx, hy]
    have hd : distance R p1.x p1.y p2.x p2.y = 0 := by
      have hz := hsq
      rw [h0] at hz
      exact pow_eq_zero_iff two_ne_zero |>.mp hz
    have hneg : ¬(distance R p1.x p1.y p2.x p2.y < playerRadius * 2 ∧
        0 < distance R p1.x p1.y p2.x p2.y) := by
      rintro ⟨-, hpos⟩
      rw [hd] at hpos
      exact lt_irrefl 0 hpos
    simp only [resolvePlayerCollision]
    rw [if_neg hneg]
  · intro hge
    have hneg : ¬(distance R p1.x p1.y p2.x p2.y < playerRadius * 2 ∧
        0 < distance R p1.x p1.y p2.x p2.y) := by
      rintro ⟨hlt, -⟩
      exact absurd hlt (not_lt.mpr hge)
    simp only [resolvePlayerCollision]
    rw [if_neg hneg]
  · intro h0 hlt
    have hdne : distance R p1.x p1.y p2.x p2.y ≠ 0 := ne_of_gt h0
    simp only [resolvePlayerCollision]
    rw [if_pos ⟨hlt, h0⟩]
    refine ⟨?_, by ring, by ring⟩
    unfold distSq at hsq ⊢
    exact push_symmetric p1.x p2.x p1.y p2.y (distance R p1.x p1.y p2.x p2.y)
      (playerRadius * 2) hdne hsq

/-- First player of the overlapping witness pair, at the origin. -/
def pNear1 : Player := { basePlayer with x := 0, y := 0 }

/-- Second player of the overlapping witness pair, half a meter away
along a 3-4-5 direction. -/
def pNear2 : Player := { basePlayer with x := 3/10, y := 2/5 }

/-- Witness for C9: the overlapping 3-4-5 pair is pushed to exact contact
distance. -/
theorem C9_resolve_collision_witness :
    distance mathRoot345 pNear1.x pNear1.y pNear2.x pNear2.y ^ 2
      = distSq pNear1.x pNear1.y pNear2.x pNear2.y ∧
    0 < distance mathRoot345 pNear1.x pNear1.y pNear2.x pNear2.y ∧
    distance mathRoot345 pNear1.x pNear1.y pNear2.x pNear2.y < playerRadius * 2 ∧
    distSq (resolvePlayerCollision mathRoot345 pNear1 pNear2).1.x
        (resolvePlayerCollision mathRoot345 pNear1 pNear2).1.y
        (resolvePlayerCollision mathRoot345 pNear1 pNear2).2.x
        (resolvePlayerCollision mathRoot345 pNear1 pNear2).2.y
      = (playerRadius * 2) ^ 2 :=
  ⟨by with_unfolding_all decide, by with_unfolding_all decide, by with_unfolding_all decide,
   ((C9_resolve_collision mathRoot345 pNear1 pNear2 (by with_unfolding_all decide)).2.2
     (by with_unfolding_all decide) (by with_unfolding_all decide)).1⟩

end Basket
